import Mathlib

/-!
Verification development for the University Assistant repository.

The development shallowly embeds the pipeline-relevant parts of the source:

* `clean_response_for_speech` (src/agent_patched.py, lines 41-84): the
  speech-normalization pipeline, a fixed sequence of Python `re.sub`
  rewrites.  Each rewrite is embedded as an explicit left-to-right,
  non-overlapping scan (`reSubSt`) driven by a matcher that transcribes the
  corresponding regular expression.  Python's `re.sub` finds matches left to
  right in the original string and never rescans replacement text; matchers
  that depend on a zero-width assertion (`^` in MULTILINE mode, `\b`) carry
  the relevant one-character state of the original string through the scan.
  Character classes `\s`, `\d`, `\w` are modelled over their ASCII meaning
  (all inputs of interest are ASCII).
* the query router and confidence check of `answer_with_rag`
  (src/agent_patched.py, lines 133-189),
* the RAG engine lifecycle, ingestion guard and query error handling
  (src/rag_engine.py), with the external llama-index/chroma calls modelled
  at their call boundary (document loading, retrieval and synthesis are
  opaque data / functions; the chroma collection is the durable store).
-/

/-! ## Character classes (ASCII semantics of Python `\s`, `\d`, `\w`) -/

/-- Python `\s` on ASCII text: space, tab, newline, carriage return,
vertical tab, form feed. -/
def isWS (c : Char) : Bool :=
  c.toNat == 32 || c.toNat == 9 || c.toNat == 10 || c.toNat == 13 ||
  c.toNat == 11 || c.toNat == 12

/-- Python `\d` on ASCII text: the characters 0-9. -/
def isDigitC (c : Char) : Bool :=
  48 ≤ c.toNat && c.toNat ≤ 57

/-- Python `\w` on ASCII text: letters, digits and underscore. -/
def isWordC (c : Char) : Bool :=
  (97 ≤ c.toNat && c.toNat ≤ 122) || (65 ≤ c.toNat && c.toNat ≤ 90) ||
  (48 ≤ c.toNat && c.toNat ≤ 57) || c.toNat == 95

/-- The bullet characters of the character class `[-•*+]`
(src/agent_patched.py lines 58-59). -/
def bulletC (c : Char) : Bool :=
  c == '-' || c == '•' || c == '*' || c == '+'

/-! ## Generic `re.sub` scan

`reSubSt try upd fuel st l` scans `l` left to right.  At each position it
asks the matcher `try` for a match of the pattern starting there; on a match
it emits the replacement and resumes after the matched text (matches are
non-overlapping, replacement text is never rescanned), otherwise it emits
the current character and moves one position right.  `st` is the matcher
state summarising the already-scanned prefix of the original string (used
for `^`/`\b` assertions); `upd` advances it over a skipped character, and a
matcher returns the state holding after the text it consumed.  All patterns
below consume at least one character per match, so `fuel = length + 1`
(supplied by `runSub`) never runs out; on exhausted fuel the rest is kept. -/
def reSubSt {σ : Type} (tr : σ → List Char → Option (List Char × σ × List Char))
    (upd : σ → Char → σ) : Nat → σ → List Char → List Char
  | 0, _, l => l
  | _ + 1, _, [] => []
  | fuel + 1, st, c :: cs =>
    match tr st (c :: cs) with
    | some (repl, st2, rest) => repl ++ reSubSt tr upd fuel st2 rest
    | none => c :: reSubSt tr upd fuel (upd st c) cs

/-- Run a single `re.sub` pass with enough fuel for the whole input. -/
def runSub {σ : Type} (tr : σ → List Char → Option (List Char × σ × List Char))
    (upd : σ → Char → σ) (st : σ) (l : List Char) : List Char :=
  reSubSt tr upd (l.length + 1) st l

/-- State update for stateless patterns. -/
def updNone : Unit → Char → Unit := fun _ _ => ()

/-- State update tracking `^` in MULTILINE mode: the next position is a line
start iff the character just scanned is a newline. -/
def updNL : Bool → Char → Bool := fun _ c => c == '\n'

/-- State update tracking `\b`: records whether the character just scanned
is a word character. -/
def updWord : Bool → Char → Bool := fun _ c => isWordC c

/-- State update for a pattern anchored with `^` without MULTILINE: after
any scanned character the anchor can no longer hold. -/
def updFalse : Bool → Char → Bool := fun _ _ => false

/-! ## Matchers, one per `re.sub` of `clean_response_for_speech` -/

/-- Scan for the closing `**` of `\*\*(.*?)\*\*`: returns the (lazy, i.e.
shortest) inner text and the rest after the closing delimiter; fails at a
newline since `.` does not match `\n`. -/
def findStarStar : List Char → Option (List Char × List Char)
  | '*' :: '*' :: rest => some ([], rest)
  | '\n' :: _ => none
  | c :: cs =>
    match findStarStar cs with
    | some (inner, rest) => some (c :: inner, rest)
    | none => none
  | [] => none

/-- Matcher for `re.sub(r'\*\*(.*?)\*\*', r'\1', text)` (line 47). -/
def tryBold : Unit → List Char → Option (List Char × Unit × List Char) := fun _ l =>
  match l with
  | c1 :: c2 :: cs =>
    if c1 = '*' ∧ c2 = '*' then
      match findStarStar cs with
      | some (inner, rest) => some (inner, (), rest)
      | none => none
    else none
  | _ => none

/-- Scan for the closing single delimiter of `d(.*?)d`: shortest inner text
with no newline, and the rest after the closing delimiter. -/
def findDelim (d : Char) : List Char → Option (List Char × List Char)
  | [] => none
  | c :: cs =>
    if c = d then some ([], cs)
    else if c = '\n' then none
    else
      match findDelim d cs with
      | some (inner, rest) => some (c :: inner, rest)
      | none => none

/-- Matcher for `re.sub(r'\*(.*?)\*', r'\1', text)` and the analogous
`_`/`` ` `` rewrites (lines 48-50), parameterised by the delimiter. -/
def tryDelim (d : Char) : Unit → List Char → Option (List Char × Unit × List Char)
  | _, [] => none
  | _, c :: cs =>
    if c = d then
      match findDelim d cs with
      | some (inner, rest) => some (inner, (), rest)
      | none => none
    else none

/-- After `\n` and one digit: consume the remaining `\d*`, then require
literal `". "`; returns the rest.  (`\d+` is greedy; giving digits back can
never help since `.` is not a digit.) -/
def afterDigitsDot : List Char → Option (List Char)
  | [] => none
  | c :: cs =>
    if isDigitC c then afterDigitsDot cs
    else if c = '.' then
      match cs with
      | ' ' :: r => some r
      | _ => none
    else none

/-- Matcher for `re.sub(r'\n(\d+)\. ', r'. Next, ', text)` (line 54). -/
def tryOrdNL : Unit → List Char → Option (List Char × Unit × List Char) := fun _ l =>
  match l with
  | c0 :: c :: cs =>
    if c0 = '\n' ∧ isDigitC c then
      match afterDigitsDot cs with
      | some r => some ((". Next, ").toList, (), r)
      | none => none
    else none
  | _ => none

/-- Matcher for `re.sub(r'^(\d+)\. ', 'First, ', text)` (line 55): without
MULTILINE the `^` anchor holds only at position 0, tracked by the state. -/
def tryOrdStart : Bool → List Char → Option (List Char × Bool × List Char)
  | false, _ => none
  | true, [] => none
  | true, c :: cs =>
    if isDigitC c then
      match afterDigitsDot cs with
      | some r => some (("First, ").toList, false, r)
      | none => none
    else none

/-- Drop leading `\s*` greedily, remembering the last whitespace character
dropped (needed to evaluate a following `^` anchor on the original text). -/
def dropWSL : Option Char → List Char → Option Char × List Char
  | last, [] => (last, [])
  | last, c :: cs => if isWS c then dropWSL (some c) cs else (last, c :: cs)

/-- Matcher for `re.sub(r'^[\s]*[-•*+]\s*', '', text, flags=re.MULTILINE)`
(line 58).  The state is true iff the current position is a line start
(position 0 or just after a `\n` of the original text); the returned state
says whether the character preceding the rest is a `\n` (the trailing `\s*`
may consume newlines). -/
def tryBullet : Bool → List Char → Option (List Char × Bool × List Char)
  | false, _ => none
  | true, l =>
    match dropWSL none l with
    | (_, c :: cs) =>
      if bulletC c then
        match dropWSL none cs with
        | (lastw, rest) => some ([], lastw == some '\n', rest)
      else none
    | (_, []) => none

/-- Matcher for `re.sub(r'\n[\s]*[-•*+]\s*', '. Also, ', text)` (line 59). -/
def tryBulletNL : Unit → List Char → Option (List Char × Unit × List Char) := fun _ l =>
  match l with
  | c0 :: cs =>
    if c0 = '\n' then
      match dropWSL none cs with
      | (_, c :: cs2) =>
        if bulletC c then some ((". Also, ").toList, (), (dropWSL none cs2).2)
        else none
      | (_, []) => none
    else none
  | [] => none

/-- Case-insensitive literal match: `pat` is given lower case; consumes
`pat.length` characters of the text whose `toLower` images equal `pat`. -/
def ciStarts : List Char → List Char → Option (List Char)
  | [], l => some l
  | _ :: _, [] => none
  | p :: ps, c :: cs => if Char.toLower c = p then ciStarts ps cs else none

/-- Matcher for the structural-label rewrites
`re.sub(r'\bNote:\s*', 'Please note that ', text, flags=re.IGNORECASE)` and
the `Important:`/`Remember:` analogues (lines 62-64).  The label starts with
a word character, so `\b` holds iff the previous character is not a word
character (state `prevWord = false`); after a match the last consumed
character is `:` or whitespace, so `prevWord` is false again. -/
def tryLabel (label repl : List Char) : Bool → List Char → Option (List Char × Bool × List Char)
  | true, _ => none
  | false, l =>
    match ciStarts label l with
    | some r => some (repl, false, (dropWSL none r).2)
    | none => none

/-- The character class of `re.sub(r'[#$%&@^`~|\\\[\]{}()<>"\']', '', text)`
(line 67), as a list. -/
def sym1List : List Char :=
  ['#', '$', '%', '&', '@', '^', Char.ofNat 96, '~', '|', '\\', '[', ']',
   Char.ofNat 123, Char.ofNat 125, '(', ')', '<', '>', Char.ofNat 34,
   Char.ofNat 39]

/-- The character class of `re.sub(r'[+=!?.,;:]', '', text)` (line 68). -/
def sym2List : List Char :=
  ['+', '=', '!', '?', '.', ',', ';', ':']

/-- Matcher for `re.sub(r'\s*/\s*', ' or ', text)` and
`re.sub(r'\s*-\s*', ' ', text)` (lines 71, 73), parameterised by the
separator and the replacement.  A match from the current position exists
iff the maximal whitespace run from here is followed by the separator
(backtracking cannot help: whitespace is never the separator). -/
def trySep (d : Char) (repl : List Char) : Unit → List Char → Option (List Char × Unit × List Char)
  | _, l =>
    match dropWSL none l with
    | (_, c :: cs) => if c = d then some (repl, (), (dropWSL none cs).2) else none
    | (_, []) => none

/-- Matcher for `re.sub(r'/', ' or ', text)` (line 72). -/
def trySlash : Unit → List Char → Option (List Char × Unit × List Char) := fun _ l =>
  match l with
  | c :: cs => if c = '/' then some ((" or ").toList, (), cs) else none
  | [] => none

/-- Greedily take the leading `\d+`. -/
def takeDigits : List Char → List Char × List Char
  | [] => ([], [])
  | c :: cs =>
    if isDigitC c then
      match takeDigits cs with
      | (ds, r) => (c :: ds, r)
    else ([], c :: cs)

/-- Word boundary after a word character: the next character is absent or
not a word character. -/
def wbAfter : List Char → Bool
  | [] => true
  | c :: _ => !(isWordC c)

/-- Literal match of `pat`; returns the rest. -/
def startsL : List Char → List Char → Option (List Char)
  | [], l => some l
  | _ :: _, [] => none
  | p :: ps, c :: cs => if c = p then startsL ps cs else none

/-- One alternative `bases?` of `(hours?|days?|weeks?|months?|years?)`
followed by `\b`: the optional `s` is greedy, and dropping it cannot
restore the boundary (the following `s` is itself a word character). -/
def tryUnitAt (base : List Char) (l : List Char) : Option (List Char × List Char) :=
  match startsL base l with
  | none => none
  | some r =>
    match r with
    | 's' :: r2 => if wbAfter r2 then some (base ++ ['s'], r2) else none
    | _ => if wbAfter r then some (base, r) else none

/-- The alternation `(hours?|days?|weeks?|months?|years?)\b`, tried in the
pattern's order. -/
def tryUnits (l : List Char) : Option (List Char × List Char) :=
  match tryUnitAt ("hour").toList l with
  | some x => some x
  | none =>
  match tryUnitAt ("day").toList l with
  | some x => some x
  | none =>
  match tryUnitAt ("week").toList l with
  | some x => some x
  | none =>
  match tryUnitAt ("month").toList l with
  | some x => some x
  | none => tryUnitAt ("year").toList l

/-- Matcher for
`re.sub(r'\b(\d+)\s*(hours?|days?|weeks?|months?|years?)\b', r'\1 \2', text)`
(line 76).  `\b` before `\d+` holds iff the previous character is not a word
character; the replacement is the digits, one space, and the unit as
matched.  After a match the last consumed character is a letter, so
`prevWord` becomes true. -/
def tryNumUnit : Bool → List Char → Option (List Char × Bool × List Char)
  | true, _ => none
  | false, [] => none
  | false, c :: cs =>
    if isDigitC c then
      match takeDigits (c :: cs) with
      | (ds, r) =>
        match tryUnits (dropWSL none r).2 with
        | some (unit, rest) => some (ds ++ ' ' :: unit, true, rest)
        | none => none
    else none

/-- Matcher for `re.sub(r'\b(\d+)\s*%', r'\1 percent', text)` (line 77). -/
def tryNumPct : Bool → List Char → Option (List Char × Bool × List Char)
  | true, _ => none
  | false, [] => none
  | false, c :: cs =>
    if isDigitC c then
      match takeDigits (c :: cs) with
      | (ds, r) =>
        match (dropWSL none r).2 with
        | '%' :: rest => some (ds ++ (" percent").toList, false, rest)
        | _ => none
    else none

/-- Matcher for `re.sub(r'\n+', ' ', text)` (line 80). -/
def tryNLs : Unit → List Char → Option (List Char × Unit × List Char) := fun _ l =>
  match l with
  | c :: cs =>
    if c = '\n' then some ([' '], (), cs.dropWhile (fun x => x == '\n')) else none
  | [] => none

/-- Matcher for `re.sub(r'\s+', ' ', text)` (line 81). -/
def tryWSrun : Unit → List Char → Option (List Char × Unit × List Char)
  | _, c :: cs => if isWS c then some ([' '], (), cs.dropWhile isWS) else none
  | _, [] => none

/-- Python `str.strip()`: drop whitespace from both ends. -/
def pyStrip (l : List Char) : List Char :=
  ((l.dropWhile isWS).reverse.dropWhile isWS).reverse

/-- An apostrophe, for building string constants containing one. -/
def apos : Char := Char.ofNat 39

/-- The label `note:` of line 62 (matched case-insensitively). -/
def noteLabel : List Char := ("note:").toList

/-- The label `important:` of line 63. -/
def impLabel : List Char := ("important:").toList

/-- The label `remember:` of line 64. -/
def remLabel : List Char := ("remember:").toList

/-- `clean_response_for_speech` (src/agent_patched.py lines 41-84) on a list
of characters: the twenty-one rewrites applied in source order. -/
def cleanL (l : List Char) : List Char :=
  let t := runSub tryBold updNone () l
  let t := runSub (tryDelim '*') updNone () t
  let t := runSub (tryDelim '_') updNone () t
  let t := runSub (tryDelim (Char.ofNat 96)) updNone () t
  let t := runSub tryOrdNL updNone () t
  let t := runSub tryOrdStart updFalse true t
  let t := runSub tryBullet updNL true t
  let t := runSub tryBulletNL updNone () t
  let t := runSub (tryLabel noteLabel ("Please note that ").toList) updWord false t
  let t := runSub (tryLabel impLabel ("This is important: ").toList) updWord false t
  let t := runSub (tryLabel remLabel ("Remember that ").toList) updWord false t
  let t := t.filter (fun c => !(sym1List.contains c))
  let t := t.filter (fun c => !(sym2List.contains c))
  let t := runSub (trySep '/' (" or ").toList) updNone () t
  let t := runSub trySlash updNone () t
  let t := runSub (trySep '-' ([' '])) updNone () t
  let t := runSub tryNumUnit updWord false t
  let t := runSub tryNumPct updWord false t
  let t := runSub tryNLs updNone () t
  let t := runSub tryWSrun updNone () t
  pyStrip t

/-- `clean_response_for_speech` on strings. -/
def clean_response_for_speech (s : String) : String :=
  String.mk (cleanL s.toList)

/-- Python `str.strip()` on strings. -/
def pyStripS (s : String) : String :=
  String.mk (pyStrip s.toList)

/-- Python `str.lower()` on ASCII text (src/agent_patched.py lowercases the
user query and the raw answer before matching). -/
def lowerL (s : String) : List Char :=
  s.toList.map Char.toLower

/-- Substring test `pat in text` (Python `in` on strings). -/
def startsWithL : List Char → List Char → Bool
  | [], _ => true
  | _ :: _, [] => false
  | p :: ps, c :: cs => p == c && startsWithL ps cs

/-- Substring occurrence anywhere in the text. -/
def hasSubstr (pat : List Char) : List Char → Bool
  | [] => startsWithL pat []
  | c :: cs => startsWithL pat (c :: cs) || hasSubstr pat cs

/-! ## Query router (src/agent_patched.py lines 137-158)

The router lowercases the query and tests it against four casual regex
families with `re.search`; each alternative of `\b(p1|p2|...)\b` occurs iff
some phrase occurs delimited by word boundaries.  Every phrase starts and
ends with a letter, so the boundaries mean: the preceding character (if
any) and the following character (if any) are not word characters. -/

/-- One word-bounded occurrence search (`re.search(r'\b(w)\b', text)` for a
single phrase `w` starting and ending in a word character): scans the text,
tracking whether the previous character is a word character. -/
def wordSearch (w : List Char) : Bool → List Char → Bool
  | _, [] => false
  | prevW, c :: cs =>
    (!prevW &&
      (match startsL w (c :: cs) with
       | some r => wbAfter r
       | none => false)) ||
    wordSearch w (isWordC c) cs

/-- `re.search` for an alternation of word-bounded phrases. -/
def anyWord (ws : List (List Char)) (l : List Char) : Bool :=
  ws.any (fun w => wordSearch w false l)

/-- The greeting family `\b(hi|hello|hey|good morning|good afternoon|good evening)\b`
(line 139, reused at line 149). -/
def greetingPats : List (List Char) :=
  [("hi").toList, ("hello").toList, ("hey").toList, ("good morning").toList,
   ("good afternoon").toList, ("good evening").toList]

/-- The status-check family `\b(how are you|what's up|how's it going)\b`
(line 140, reused at line 151). -/
def statusPats : List (List Char) :=
  [("how are you").toList,
   ("what").toList ++ apos :: ("s up").toList,
   ("how").toList ++ apos :: ("s it going").toList]

/-- The combined gratitude/farewell family `\b(thank you|thanks|bye|goodbye)\b`
(line 141). -/
def thanksByePats : List (List Char) :=
  [("thank you").toList, ("thanks").toList, ("bye").toList, ("goodbye").toList]

/-- The capability-inquiry family `\b(what can you do|help me|what do you know)\b`
(line 142). -/
def capabilityPats : List (List Char) :=
  [("what can you do").toList, ("help me").toList, ("what do you know").toList]

/-- The gratitude sub-family checked at line 153. -/
def gratitudePats : List (List Char) :=
  [("thank you").toList, ("thanks").toList]

/-- The farewell sub-family checked at line 155. -/
def farewellPats : List (List Char) :=
  [("bye").toList, ("goodbye").toList]

/-- Casual-conversation subtypes, named after the prompt each branch of
lines 149-158 selects. -/
inductive CasualKind
  | greeting
  | status
  | gratitude
  | farewell
  | capability
deriving DecidableEq

/-- Router classification: a casual subtype, or a knowledge query routed to
retrieval. -/
inductive Route
  | casual : CasualKind → Route
  | knowledge
deriving DecidableEq

/-- The classification performed by `answer_with_rag` (lines 137-158):
`is_casual` is the disjunction of the four pattern families; a casual query
is then dispatched through the `if`/`elif` chain of lines 149-158 (its
final `else` is the capability prompt); a non-casual query goes to the RAG
knowledge path. -/
def classify (q : String) : Route :=
  let l := lowerL q
  let isCasual := anyWord greetingPats l || anyWord statusPats l ||
                  anyWord thanksByePats l || anyWord capabilityPats l
  if isCasual then
    if anyWord greetingPats l then .casual .greeting
    else if anyWord statusPats l then .casual .status
    else if anyWord gratitudePats l then .casual .gratitude
    else if anyWord farewellPats l then .casual .farewell
    else .casual .capability
  else .knowledge

/-- Modelled from the spec's wording (§4.6) for comparison with `classify`:
the five families checked in priority order, first match wins, no match
means Knowledge. -/
def classifySpecOrder (q : String) : Route :=
  let l := lowerL q
  if anyWord greetingPats l then .casual .greeting
  else if anyWord statusPats l then .casual .status
  else if anyWord gratitudePats l then .casual .gratitude
  else if anyWord farewellPats l then .casual .farewell
  else if anyWord capabilityPats l then .casual .capability
  else .knowledge

/-! ## Confidence check (src/agent_patched.py lines 160-189) -/

/-- The string `don't know` (line 165). -/
def dontKnowPat : List Char := ("don").toList ++ apos :: ("t know").toList

/-- The string `cannot` (line 165). -/
def cannotPat : List Char := ("cannot").toList

/-- Line 165: the raw RAG answer is judged insufficient when its lowercase
form contains `don't know` or `cannot`, or the cleaned answer's stripped
length is below 15 characters. -/
def ragLowConf (ragAnswer : String) : Bool :=
  hasSubstr dontKnowPat (lowerL ragAnswer) ||
  hasSubstr cannotPat (lowerL ragAnswer) ||
  decide ((pyStripS (clean_response_for_speech ragAnswer)).length < 15)

/-- Confidence classification of a raw knowledge answer. -/
inductive Confidence
  | confident
  | low
deriving DecidableEq

/-- The confidence check: `low` exactly on the line-165 condition. -/
def assessConfidence (ragAnswer : String) : Confidence :=
  if ragLowConf ragAnswer then .low else .confident

/-- The two prompt templates of lines 166-189. -/
inductive PromptKind
  | acknowledgeRedirect
  | directAnswer
deriving DecidableEq

/-- Prompt selection on the knowledge path: the line-165 test picks the
acknowledge-and-redirect template (lines 166-175), otherwise the
direct-answer template (lines 177-189). -/
def promptFor (ragAnswer : String) : PromptKind :=
  if ragLowConf ragAnswer then .acknowledgeRedirect else .directAnswer

/-- The concrete raw answer of the spec's confidence example, `I don't know
the policy.` -/
def dontKnowPolicy : String :=
  "I don" ++ String.mk [apos] ++ "t know the policy."

/-! ## RAG engine lifecycle (src/rag_engine.py)

The chroma collection (created by a `PersistentClient`, hence durable) is
modelled as the list of stored chunks.  The llama-index calls are modelled
at their boundary: `SimpleDirectoryReader(...).load_data()` yields the
directory's documents and raises when the directory is missing;
`VectorStoreIndex.from_documents` writes the documents' chunks into the
collection (chunk granularity is abstracted 1:1);
`VectorStoreIndex.from_vector_store` builds the index over the existing
items without touching them.  Exceptions are modelled as `Except.error`. -/

/-- The persistent chroma collection `university_data`. -/
structure Collection where
  items : List String
deriving DecidableEq

/-- The engine's index: the chunks it was built over, plus the collection. -/
structure Engine where
  collection : Collection
  indexDocs : List String
deriving DecidableEq

/-- Whether `__init__` ingested documents or only loaded the existing
collection (lines 80-88). -/
inductive InitAction
  | ingested
  | loaded
deriving DecidableEq

/-- `SimpleDirectoryReader(input_dir=DATA_DIR, ...).load_data()` (lines
108-112): returns the directory's documents, raising when the directory
does not exist. -/
def loadData (dirExists : Bool) (dirDocs : List String) : Except String (List String) :=
  if dirExists then .ok dirDocs else .error "Directory not found"

/-- `_ingest_documents` (lines 100-133): if `DATA_DIR` does not exist, log
a warning and build an empty index over the (empty) collection — no
exception, no documents; otherwise load the documents, write their chunks
into the collection and persist. -/
def ingestDocuments (dirExists : Bool) (dirDocs : List String)
    (c : Collection) : Except String (Collection × List String) :=
  if !dirExists then .ok (c, [])
  else (loadData dirExists dirDocs).map
    (fun ds => ({ items := c.items ++ ds }, ds))

/-- `UniversityRAGEngine.__init__` (lines 80-88): ingest only when the
collection is empty; otherwise load the index from the existing vector
store, leaving the collection untouched. -/
def engineInit (dirExists : Bool) (dirDocs : List String)
    (c : Collection) : Except String (Engine × InitAction) :=
  if c.items.length = 0 then
    (ingestDocuments dirExists dirDocs c).map
      (fun p => ({ collection := p.1, indexDocs := p.2 }, .ingested))
  else .ok ({ collection := c, indexDocs := c.items }, .loaded)

/-- `UniversityRAGEngine.get_rag_answer` (lines 135-145): a blank query is
answered with a fixed validity message without consulting the query engine;
otherwise the query engine (`self.query_engine.query`, modelled as the
function `qf`, whose exceptions are `Except.error`) is consulted, and any
exception is caught and converted to the fixed sentinel. -/
def getRagAnswer (qf : String → Except String String) (query : String) : String :=
  if pyStripS query = "" then "Please ask a valid question."
  else
    match qf query with
    | .ok r => r
    | .error _ => "Sorry, I could not retrieve the answer right now."

/-- A query engine that always raises, for exercising the failure path. -/
def failQf : String → Except String String :=
  fun _ => .error "retrieval backend failure"

/-! ## Entrypoint startup (src/agent_patched.py lines 86-130) -/

/-- The started agent session: the engine plus the credentials the LLM and
TTS components were built with. -/
structure SessionModel where
  engine : Engine
  llmKey : String
  ttsKey : String
deriving DecidableEq

/-- `entrypoint` (lines 86-130) up to `session.start`: initialize the RAG
engine, then check `GROQ_API_KEY` (raising `ValueError` when absent, line
98), then check `CARTESIA_API_KEY` (line 108), then build the session.
Queries are served only through transcription events of a started session,
so an error here precedes any query. -/
def entrypoint (groqKey cartesiaKey : Option String) (dirExists : Bool)
    (dirDocs : List String) (c : Collection) : Except String SessionModel := do
  let (eng, _) ← engineInit dirExists dirDocs c
  let gk ← match groqKey with
    | some k => Except.ok k
    | none => Except.error "GROQ_API_KEY not found in environment variables"
  let ck ← match cartesiaKey with
    | some k => Except.ok k
    | none => Except.error "CARTESIA_API_KEY not found in environment variables"
  return { engine := eng, llmKey := gk, ttsKey := ck }

/-! ## Engine singleton (src/rag_engine.py lines 152-171)

`initialize_rag_engine` checks the global `_rag_engine` for `None` and
constructs a `UniversityRAGEngine` when unset.  Engine instances are
identified by construction number; `constructed` counts constructions.
For the concurrency question the body is modelled at the granularity the
interpreter allows a thread switch: the `None` check and the
construct-and-assign are separate atomic steps. -/

/-- The module-global state: `_rag_engine` and the number of
`UniversityRAGEngine()` constructions performed so far. -/
structure RagGlobal where
  ragEngine : Option Nat
  constructed : Nat
deriving DecidableEq

/-- `initialize_rag_engine` run atomically (a single caller, no
interleaving): return the existing instance, or construct, assign and
return a new one. -/
def initRagEngine (g : RagGlobal) : RagGlobal × Nat :=
  match g.ragEngine with
  | some e => (g, e)
  | none => ({ ragEngine := some g.constructed, constructed := g.constructed + 1 }, g.constructed)

/-- Program counter of one caller executing `initialize_rag_engine`:
before the `None` check; after having observed `None` (about to construct);
done holding an instance. -/
inductive CallerPC
  | start
  | sawNone
  | done : Nat → CallerPC
deriving DecidableEq

/-- One atomic step of one caller: the `if _rag_engine is None` check, or
the `_rag_engine = UniversityRAGEngine()` construct-and-assign. -/
def stepCaller : CallerPC → RagGlobal → CallerPC × RagGlobal
  | .start, g =>
    match g.ragEngine with
    | some e => (.done e, g)
    | none => (.sawNone, g)
  | .sawNone, g =>
    (.done g.constructed,
     { ragEngine := some g.constructed, constructed := g.constructed + 1 })
  | .done e, g => (.done e, g)

/-- Two concurrent first-time callers of `initialize_rag_engine` sharing
the module globals. -/
structure TwoCallers where
  g : RagGlobal
  a : CallerPC
  b : CallerPC
deriving DecidableEq

/-- Interleaving step: schedule caller `a` (true) or caller `b` (false). -/
def stepSys (who : Bool) (s : TwoCallers) : TwoCallers :=
  if who then
    match stepCaller s.a s.g with
    | (a2, g2) => { s with a := a2, g := g2 }
  else
    match stepCaller s.b s.g with
    | (b2, g2) => { s with b := b2, g := g2 }

/-- Run a schedule of interleaved steps. -/
def runSched : List Bool → TwoCallers → TwoCallers
  | [], s => s
  | w :: ws, s => runSched ws (stepSys w s)

/-- Both callers at the start, engine unset, nothing constructed. -/
def initSys : TwoCallers :=
  { g := { ragEngine := none, constructed := 0 }, a := .start, b := .start }

/-! ## Plain speech text, for the idempotence analysis of the normalizer

A text is in plain spoken form when it consists of lowercase basic-latin
letters and single spaces, neither starting nor ending with a space.  On
such text every rewrite of `clean_response_for_speech` is the identity. -/

/-- A lowercase letter `a`-`z` or a space. -/
def plainChar (c : Char) : Bool :=
  (97 ≤ c.toNat && c.toNat ≤ 122) || c.toNat == 32

/-- No two adjacent whitespace characters. -/
def noAdjWS : List Char → Bool
  | c1 :: c2 :: t => (!(isWS c1 && isWS c2)) && noAdjWS (c2 :: t)
  | _ => true

/-- The first character, if any, is not whitespace. -/
def headNotWS : List Char → Bool
  | [] => true
  | c :: _ => !(isWS c)

/-- The last character, if any, is not whitespace. -/
def lastNotWS (l : List Char) : Bool :=
  headNotWS l.reverse

/-- Plain spoken text: lowercase letters and spaces only, no adjacent
spaces, no leading or trailing space. -/
def plainSpeech (s : String) : Bool :=
  s.toList.all plainChar && noAdjWS s.toList && headNotWS s.toList && lastNotWS s.toList

/-! ## Helper lemmas -/

/-- Rebuilding a string from its character list is the identity. -/
theorem strMk_toList (s : String) : String.mk s.toList = s := rfl

/-- If the matcher finds no match under a character invariant, the scan is
the identity. -/
theorem reSubSt_eq_self {σ : Type} (tr : σ → List Char → Option (List Char × σ × List Char))
    (upd : σ → Char → σ) (P : Char → Prop)
    (hnone : ∀ (st : σ) (l : List Char), (∀ c ∈ l, P c) → tr st l = none) :
    ∀ (fuel : Nat) (st : σ) (l : List Char), (∀ c ∈ l, P c) →
      reSubSt tr upd fuel st l = l := by
  intro fuel
  induction fuel with
  | zero => intro st l _; rfl
  | succ n ih =>
    intro st l hl
    cases l with
    | nil => rfl
    | cons c cs =>
      rw [reSubSt, hnone st (c :: cs) hl]
      exact congrArg (c :: ·) (ih (upd st c) cs (fun x hx => hl x (List.mem_cons_of_mem c hx)))

/-- As `reSubSt_eq_self`, for a single full pass. -/
theorem runSub_eq_self {σ : Type} (tr : σ → List Char → Option (List Char × σ × List Char))
    (upd : σ → Char → σ) (P : Char → Prop)
    (hnone : ∀ (st : σ) (l : List Char), (∀ c ∈ l, P c) → tr st l = none)
    (st : σ) (l : List Char) (hl : ∀ c ∈ l, P c) :
    runSub tr upd st l = l :=
  reSubSt_eq_self tr upd P hnone (l.length + 1) st l hl

/-- Dropping leading whitespace keeps a suffix of the list. -/
theorem dropWSL_mem : ∀ (a : Option Char) (l : List Char) (c : Char),
    c ∈ (dropWSL a l).2 → c ∈ l := by
  intro a l
  induction l generalizing a with
  | nil => intro c h; exact absurd h (by simp [dropWSL])
  | cons x xs ih =>
    intro c h
    rw [dropWSL] at h
    by_cases hx : isWS x
    · rw [if_pos hx] at h
      exact List.mem_cons_of_mem x (ih (some x) c h)
    · rw [if_neg hx] at h
      exact h

/-- A successful case-insensitive prefix match means every pattern
character is the lowercase image of some text character. -/
theorem ciStarts_mem : ∀ (ps l r : List Char), ciStarts ps l = some r →
    ∀ p ∈ ps, ∃ c ∈ l, Char.toLower c = p := by
  intro ps
  induction ps with
  | nil => intro l r _ p hp; exact absurd hp (by simp)
  | cons q qs ih =>
    intro l r hm p hp
    cases l with
    | nil => exact absurd hm (by simp [ciStarts])
    | cons c cs =>
      rw [ciStarts] at hm
      by_cases hc : Char.toLower c = q
      · rw [if_pos hc] at hm
        rcases List.mem_cons.mp hp with hpq | hpqs
        · exact ⟨c, List.mem_cons_self c cs, hpq ▸ hc⟩
        · obtain ⟨c2, hc2, hc2l⟩ := ih cs r hm p hpqs
          exact ⟨c2, List.mem_cons_of_mem c hc2, hc2l⟩
      · rw [if_neg hc] at hm
        exact absurd hm (by simp)

/-- A plain character differs from any non-plain character. -/
theorem plain_ne_of (c x : Char) (h : plainChar c = true) (hx : plainChar x = false) :
    c ≠ x := by
  intro e
  subst e
  rw [h] at hx
  cases hx

/-- Lowercasing is the identity on plain characters. -/
theorem toLower_plain (c : Char) (h : plainChar c = true) : Char.toLower c = c := by
  have hnat : (97 ≤ c.toNat ∧ c.toNat ≤ 122) ∨ c.toNat = 32 := by
    simp [plainChar] at h
    omega
  unfold Char.toLower
  rw [if_neg (by omega)]

/-- Plain characters are not digits. -/
theorem plain_not_digit (c : Char) (h : plainChar c = true) : isDigitC c = false := by
  simp [plainChar] at h
  simp [isDigitC]
  omega

/-- Plain characters are not bullet characters. -/
theorem plain_not_bullet (c : Char) (h : plainChar c = true) : bulletC c = false := by
  cases hb : bulletC c
  · rfl
  · exfalso
    simp [bulletC] at hb
    rcases hb with ((h1 | h1) | h1) | h1 <;> subst h1 <;> exact absurd h (by decide)

/-- The lowercase image of a plain character is never a colon. -/
theorem plain_toLower_ne_colon (c : Char) (h : plainChar c = true) :
    Char.toLower c ≠ ':' := by
  rw [toLower_plain c h]
  exact plain_ne_of c ':' h (by decide)

/-- The only whitespace plain character is the space. -/
theorem plain_ws_space (c : Char) (h : plainChar c = true) (hw : isWS c = true) :
    c = ' ' := by
  have hnat : c.toNat = 32 := by
    simp [plainChar] at h
    simp [isWS] at hw
    omega
  have := Char.ofNat_toNat c
  rw [hnat] at this
  rw [← this]

/-- Plain characters are not in the line-67 symbol class. -/
theorem plain_not_sym1 (c : Char) (h : plainChar c = true) :
    sym1List.contains c = false := by
  cases hc : sym1List.contains c
  · rfl
  · exfalso
    have hm : c ∈ sym1List := by
      simpa using hc
    have hall : ∀ x ∈ sym1List, plainChar x = false := by decide
    have := hall c hm
    rw [h] at this
    cases this

/-- Plain characters are not in the line-68 punctuation class. -/
theorem plain_not_sym2 (c : Char) (h : plainChar c = true) :
    sym2List.contains c = false := by
  cases hc : sym2List.contains c
  · rfl
  · exfalso
    have hm : c ∈ sym2List := by
      simpa using hc
    have hall : ∀ x ∈ sym2List, plainChar x = false := by decide
    have := hall c hm
    rw [h] at this
    cases this

/-- The bold matcher finds nothing in text without asterisks. -/
theorem tryBold_none (st : Unit) (l : List Char) (h : ∀ c ∈ l, c ≠ '*') :
    tryBold st l = none := by
  cases l with
  | nil => rfl
  | cons c1 t =>
    cases t with
    | nil => rfl
    | cons c2 cs =>
      have h1 : c1 ≠ '*' := h c1 (List.mem_cons_self _ _)
      simp only [tryBold]
      rw [if_neg (fun hand => h1 hand.1)]

/-- The single-delimiter matcher finds nothing in text without the
delimiter. -/
theorem tryDelim_none (d : Char) (st : Unit) (l : List Char) (h : ∀ c ∈ l, c ≠ d) :
    tryDelim d st l = none := by
  cases l with
  | nil => rfl
  | cons c cs =>
    simp only [tryDelim]
    rw [if_neg (h c (List.mem_cons_self _ _))]

/-- The newline-ordinal matcher finds nothing in text without newlines. -/
theorem tryOrdNL_none (st : Unit) (l : List Char) (h : ∀ c ∈ l, c ≠ '\n') :
    tryOrdNL st l = none := by
  cases l with
  | nil => rfl
  | cons c1 t =>
    cases t with
    | nil => rfl
    | cons c2 cs =>
      simp only [tryOrdNL]
      rw [if_neg (fun hand => h c1 (List.mem_cons_self _ _) hand.1)]

/-- The start-anchored ordinal matcher finds nothing in text without
digits. -/
theorem tryOrdStart_none (st : Bool) (l : List Char) (h : ∀ c ∈ l, isDigitC c = false) :
    tryOrdStart st l = none := by
  cases st with
  | false => rfl
  | true =>
    cases l with
    | nil => rfl
    | cons c cs =>
      simp only [tryOrdStart]
      rw [if_neg (by rw [h c (List.mem_cons_self _ _)]; exact Bool.false_ne_true)]

/-- The line-start bullet matcher finds nothing in text without bullet
characters. -/
theorem tryBullet_none (st : Bool) (l : List Char) (h : ∀ c ∈ l, bulletC c = false) :
    tryBullet st l = none := by
  cases st with
  | false => rfl
  | true =>
    simp only [tryBullet]
    rcases hdrop : dropWSL none l with ⟨lastw, l2⟩
    cases l2 with
    | nil => rfl
    | cons c cs2 =>
      have hc : c ∈ l := dropWSL_mem none l c (by rw [hdrop]; exact List.mem_cons_self _ _)
      simp [h c hc]

/-- The newline-bullet matcher finds nothing in text without newlines. -/
theorem tryBulletNL_none (st : Unit) (l : List Char) (h : ∀ c ∈ l, c ≠ '\n') :
    tryBulletNL st l = none := by
  cases l with
  | nil => rfl
  | cons c cs =>
    simp only [tryBulletNL]
    rw [if_neg (h c (List.mem_cons_self _ _))]

/-- A label containing a colon never matches in text whose lowercase image
has no colon. -/
theorem tryLabel_none (label repl : List Char) (hcol : ':' ∈ label)
    (st : Bool) (l : List Char) (h : ∀ c ∈ l, Char.toLower c ≠ ':') :
    tryLabel label repl st l = none := by
  cases st with
  | true => rfl
  | false =>
    simp only [tryLabel]
    cases hm : ciStarts label l with
    | none => rfl
    | some r =>
      exfalso
      obtain ⟨c, hcl, hcc⟩ := ciStarts_mem label l r hm ':' hcol
      exact h c hcl hcc

/-- The separator matcher finds nothing in text without the separator. -/
theorem trySep_none (d : Char) (repl : List Char) (st : Unit) (l : List Char)
    (h : ∀ c ∈ l, c ≠ d) : trySep d repl st l = none := by
  simp only [trySep]
  rcases hdrop : dropWSL none l with ⟨lastw, l2⟩
  cases l2 with
  | nil => rfl
  | cons c cs =>
    have hc : c ∈ l := dropWSL_mem none l c (by rw [hdrop]; exact List.mem_cons_self _ _)
    simp [h c hc]

/-- The slash matcher finds nothing in text without slashes. -/
theorem trySlash_none (st : Unit) (l : List Char) (h : ∀ c ∈ l, c ≠ '/') :
    trySlash st l = none := by
  cases l with
  | nil => rfl
  | cons c cs =>
    simp only [trySlash]
    rw [if_neg (h c (List.mem_cons_self _ _))]

/-- The number-unit matcher finds nothing in text without digits. -/
theorem tryNumUnit_none (st : Bool) (l : List Char) (h : ∀ c ∈ l, isDigitC c = false) :
    tryNumUnit st l = none := by
  cases st with
  | true => rfl
  | false =>
    cases l with
    | nil => rfl
    | cons c cs =>
      simp only [tryNumUnit]
      rw [if_neg (by rw [h c (List.mem_cons_self _ _)]; exact Bool.false_ne_true)]

/-- The percentage matcher finds nothing in text without digits. -/
theorem tryNumPct_none (st : Bool) (l : List Char) (h : ∀ c ∈ l, isDigitC c = false) :
    tryNumPct st l = none := by
  cases st with
  | true => rfl
  | false =>
    cases l with
    | nil => rfl
    | cons c cs =>
      simp only [tryNumPct]
      rw [if_neg (by rw [h c (List.mem_cons_self _ _)]; exact Bool.false_ne_true)]

/-- The newline-run matcher finds nothing in text without newlines. -/
theorem tryNLs_none (st : Unit) (l : List Char) (h : ∀ c ∈ l, c ≠ '\n') :
    tryNLs st l = none := by
  cases l with
  | nil => rfl
  | cons c cs =>
    simp only [tryNLs]
    rw [if_neg (h c (List.mem_cons_self _ _))]

/-- The no-adjacent-whitespace invariant restricts to the tail. -/
theorem noAdjWS_tail (c : Char) (cs : List Char) (h : noAdjWS (c :: cs) = true) :
    noAdjWS cs = true := by
  cases cs with
  | nil => rfl
  | cons c2 t =>
    simp only [noAdjWS, Bool.and_eq_true] at h
    exact h.2

/-- Under the no-adjacent-whitespace invariant, a whitespace character is
followed by a non-whitespace character. -/
theorem noAdjWS_head (c c2 : Char) (t : List Char) (h : noAdjWS (c :: c2 :: t) = true)
    (hw : isWS c = true) : isWS c2 = false := by
  simp only [noAdjWS, Bool.and_eq_true] at h
  have h1 := h.1
  cases hc2 : isWS c2
  · rfl
  · rw [hw, hc2] at h1
    simp at h1

/-- The whitespace-collapsing pass is the identity on text whose only
whitespace is single spaces. -/
theorem reSub_wsrun_id : ∀ (fuel : Nat) (l : List Char),
    (∀ c ∈ l, isWS c = true → c = ' ') → noAdjWS l = true →
    reSubSt tryWSrun updNone fuel () l = l := by
  intro fuel
  induction fuel with
  | zero => intro l _ _; rfl
  | succ n ih =>
    intro l hws hadj
    cases l with
    | nil => rfl
    | cons c cs =>
      rw [reSubSt]
      cases hc : isWS c with
      | false =>
        have htry : tryWSrun () (c :: cs) = none := by
          simp only [tryWSrun]
          rw [if_neg (by rw [hc]; exact Bool.false_ne_true)]
        rw [htry]
        exact congrArg (c :: ·)
          (ih cs (fun x hx hwx => hws x (List.mem_cons_of_mem c hx) hwx) (noAdjWS_tail c cs hadj))
      | true =>
        have hsp : c = ' ' := hws c (List.mem_cons_self _ _) hc
        have htry : tryWSrun () (c :: cs) = some ([' '], (), cs.dropWhile isWS) := by
          simp only [tryWSrun]
          rw [if_pos hc]
        rw [htry]
        have hdw : cs.dropWhile isWS = cs := by
          cases cs with
          | nil => rfl
          | cons c2 t =>
            have h2 : isWS c2 = false := noAdjWS_head c c2 t hadj hc
            simp [List.dropWhile_cons, h2]
        rw [hdw, hsp]
        exact congrArg (' ' :: ·)
          (ih cs (fun x hx hwx => hws x (List.mem_cons_of_mem c hx) hwx) (noAdjWS_tail c cs hadj))

/-- The line-67 symbol filter is the identity on plain text. -/
theorem filter_sym1_id (l : List Char) (h : ∀ c ∈ l, plainChar c = true) :
    l.filter (fun c => !(sym1List.contains c)) = l := by
  apply List.filter_eq_self.mpr
  intro a ha
  rw [plain_not_sym1 a (h a ha)]
  rfl

/-- The line-68 punctuation filter is the identity on plain text. -/
theorem filter_sym2_id (l : List Char) (h : ∀ c ∈ l, plainChar c = true) :
    l.filter (fun c => !(sym2List.contains c)) = l := by
  apply List.filter_eq_self.mpr
  intro a ha
  rw [plain_not_sym2 a (h a ha)]
  rfl

/-- Stripping is the identity when neither end is whitespace. -/
theorem pyStrip_id (l : List Char) (hh : headNotWS l = true) (ht : lastNotWS l = true) :
    pyStrip l = l := by
  unfold pyStrip
  have h1 : l.dropWhile isWS = l := by
    cases l with
    | nil => rfl
    | cons c cs =>
      rw [headNotWS] at hh
      simp at hh
      simp [List.dropWhile_cons, hh]
  rw [h1]
  have h2 : l.reverse.dropWhile isWS = l.reverse := by
    cases hr : l.reverse with
    | nil => rfl
    | cons c cs =>
      unfold lastNotWS at ht
      rw [hr] at ht
      rw [headNotWS] at ht
      simp at ht
      simp [List.dropWhile_cons, ht]
  rw [h2, List.reverse_reverse]

/-- Every pass of the normalizer is the identity on plain spoken text. -/
theorem cleanL_plain (l : List Char) (hall : ∀ c ∈ l, plainChar c = true)
    (hadj : noAdjWS l = true) (hh : headNotWS l = true) (ht : lastNotWS l = true) :
    cleanL l = l := by
  have hstar : ∀ c ∈ l, c ≠ '*' := fun c hc => plain_ne_of c '*' (hall c hc) (by decide)
  have hund : ∀ c ∈ l, c ≠ '_' := fun c hc => plain_ne_of c '_' (hall c hc) (by decide)
  have hbt : ∀ c ∈ l, c ≠ Char.ofNat 96 :=
    fun c hc => plain_ne_of c (Char.ofNat 96) (hall c hc) (by decide)
  have hnl : ∀ c ∈ l, c ≠ '\n' := fun c hc => plain_ne_of c '\n' (hall c hc) (by decide)
  have hdig : ∀ c ∈ l, isDigitC c = false := fun c hc => plain_not_digit c (hall c hc)
  have hbul : ∀ c ∈ l, bulletC c = false := fun c hc => plain_not_bullet c (hall c hc)
  have hcol : ∀ c ∈ l, Char.toLower c ≠ ':' :=
    fun c hc => plain_toLower_ne_colon c (hall c hc)
  have hsl : ∀ c ∈ l, c ≠ '/' := fun c hc => plain_ne_of c '/' (hall c hc) (by decide)
  have hda : ∀ c ∈ l, c ≠ '-' := fun c hc => plain_ne_of c '-' (hall c hc) (by decide)
  have hwsp : ∀ c ∈ l, isWS c = true → c = ' ' := fun c hc => plain_ws_space c (hall c hc)
  simp only [cleanL]
  rw [runSub_eq_self tryBold updNone _ tryBold_none () l hstar]
  rw [runSub_eq_self (tryDelim '*') updNone _ (tryDelim_none '*') () l hstar]
  rw [runSub_eq_self (tryDelim '_') updNone _ (tryDelim_none '_') () l hund]
  rw [runSub_eq_self (tryDelim (Char.ofNat 96)) updNone _ (tryDelim_none (Char.ofNat 96)) () l hbt]
  rw [runSub_eq_self tryOrdNL updNone _ tryOrdNL_none () l hnl]
  rw [runSub_eq_self tryOrdStart updFalse _ tryOrdStart_none true l hdig]
  rw [runSub_eq_self tryBullet updNL _ tryBullet_none true l hbul]
  rw [runSub_eq_self tryBulletNL updNone _ tryBulletNL_none () l hnl]
  rw [runSub_eq_self (tryLabel noteLabel (("Please note that ").toList)) updWord _
    (tryLabel_none noteLabel (("Please note that ").toList) (by decide)) false l hcol]
  rw [runSub_eq_self (tryLabel impLabel (("This is important: ").toList)) updWord _
    (tryLabel_none impLabel (("This is important: ").toList) (by decide)) false l hcol]
  rw [runSub_eq_self (tryLabel remLabel (("Remember that ").toList)) updWord _
    (tryLabel_none remLabel (("Remember that ").toList) (by decide)) false l hcol]
  rw [filter_sym1_id l hall]
  rw [filter_sym2_id l hall]
  rw [runSub_eq_self (trySep '/' ((" or ").toList)) updNone _
    (trySep_none '/' ((" or ").toList)) () l hsl]
  rw [runSub_eq_self trySlash updNone _ trySlash_none () l hsl]
  rw [runSub_eq_self (trySep '-' [' ']) updNone _ (trySep_none '-' [' ']) () l hda]
  rw [runSub_eq_self tryNumUnit updWord _ tryNumUnit_none false l hdig]
  rw [runSub_eq_self tryNumPct updWord _ tryNumPct_none false l hdig]
  rw [runSub_eq_self tryNLs updNone _ tryNLs_none () l hnl]
  rw [show runSub tryWSrun updNone () l = l from reSub_wsrun_id (l.length + 1) l hwsp hadj]
  exact pyStrip_id l hh ht

/-- The normalizer is the identity on plain spoken text. -/
theorem clean_plain (s : String) (h : plainSpeech s = true) :
    clean_response_for_speech s = s := by
  rw [plainSpeech] at h
  simp only [Bool.and_eq_true] at h
  obtain ⟨⟨⟨h1, h2⟩, h3⟩, h4⟩ := h
  unfold clean_response_for_speech
  rw [cleanL_plain s.toList (List.all_eq_true.mp h1) h2 h3 h4]
  exact strMk_toList s

/-! ## Claims -/

/-- Claim C1, counterexample: the speech normalizer is not idempotent.  On
`"a *\nb *"` one pass leaves the two unpaired asterisks (each line has a
single `*`, which `\*(.*?)\*` cannot pair across the newline) and joins the
lines into `"a * b *"`; a second pass then pairs and strips them, giving
`"a b"`.  So `normalize (normalize x) ≠ normalize x` for this input. -/
theorem C1_normalize_not_idempotent_counterexample :
    clean_response_for_speech (clean_response_for_speech "a *\nb *") ≠
      clean_response_for_speech "a *\nb *" ∧
    clean_response_for_speech "a *\nb *" = "a * b *" ∧
    clean_response_for_speech (clean_response_for_speech "a *\nb *") = "a b" := by
  refine ⟨?_, by decide, by decide⟩
  decide

/-- Claim C1, amended: the normalizer is not idempotent on all text
(see the counterexample); it is idempotent on text already in plain spoken
form — lowercase words separated by single spaces — because a full pass is
the identity there. -/
theorem C1_normalize_idempotent_on_plain_text (s : String) (h : plainSpeech s = true) :
    clean_response_for_speech (clean_response_for_speech s) =
      clean_response_for_speech s := by
  rw [clean_plain s h, clean_plain s h]

/-- Claim C1 witness: the amended idempotence at the concrete plain input
`"hello world"`. -/
theorem C1_normalize_idempotent_on_plain_text_witness :
    plainSpeech "hello world" = true ∧
    clean_response_for_speech (clean_response_for_speech "hello world") =
      clean_response_for_speech "hello world" :=
  ⟨by decide, C1_normalize_idempotent_on_plain_text "hello world" (by decide)⟩

/-- Claim C2: on `"**Note:** Fees are 10%"` the normalizer removes the
asterisks and expands the label, but the symbol-stripping rewrite of line
67 deletes the `%` before the percentage rewrite of line 77 can run, so the
output is `"Please note that Fees are 10"` — it contains no `*` and no `%`
and contains `"Please note that"`, but does not contain `"10 percent"`:
the `%` is merely deleted, never rewritten to spoken form.  The dedicated
rule `re.sub(r'\b(\d+)\s*%', r'\1 percent', ...)` at line 77 is
unreachable, contradicting its evident purpose. -/
theorem C2_percent_deleted_before_spoken_form :
    clean_response_for_speech "**Note:** Fees are 10%" = "Please note that Fees are 10" ∧
    hasSubstr (("10 percent").toList)
      ((clean_response_for_speech "**Note:** Fees are 10%").toList) = false ∧
    hasSubstr (("percent").toList)
      ((clean_response_for_speech "**Note:** Fees are 10%").toList) = false := by
  refine ⟨by decide, by decide, by decide⟩

/-- Claim C3: the confidence check classifies a raw knowledge answer as
LowConfidence exactly when the normalized answer's trimmed length is below
15 OR the lowercased raw answer contains `don't know` or `cannot`; the
spec's example `I don't know the policy.` is LowConfidence; and the
classification selects the prompt template: Confident picks the
direct-answer prompt, LowConfidence the acknowledge-and-redirect prompt. -/
theorem C3_confidence_check :
    (∀ raw : String,
      (assessConfidence raw = Confidence.low ↔
        ((pyStripS (clean_response_for_speech raw)).length < 15 ∨
         hasSubstr dontKnowPat (lowerL raw) = true ∨
         hasSubstr cannotPat (lowerL raw) = true))) ∧
    assessConfidence dontKnowPolicy = Confidence.low ∧
    (∀ raw : String,
      promptFor raw =
        (match assessConfidence raw with
         | Confidence.confident => PromptKind.directAnswer
         | Confidence.low => PromptKind.acknowledgeRedirect)) := by
  refine ⟨?_, by decide, ?_⟩
  · intro raw
    unfold assessConfidence ragLowConf
    cases h1 : hasSubstr dontKnowPat (lowerL raw) <;>
      cases h2 : hasSubstr cannotPat (lowerL raw) <;>
      rcases Nat.lt_or_ge (pyStripS (clean_response_for_speech raw)).length 15 with h3 | h3 <;>
      simp [h3, Nat.not_lt.mpr h3]
  · intro raw
    unfold promptFor assessConfidence
    cases h : ragLowConf raw <;> simp [h]

/-- Claim C4: the router's classification agrees, for every query, with the
spec's description — the five families greeting, status-check, gratitude,
farewell, capability-inquiry checked in that priority order with the first
match winning, and no match giving Knowledge (the code's combined
`thank you|thanks|bye|goodbye` family is exactly gratitude-or-farewell,
and its casual `else` branch fires exactly when only the capability family
matches); in particular `"hey there"` is Casual(greeting) and
`"what is the library timing"` is Knowledge. -/
theorem C4_router_priority_classification :
    (∀ q : String, classify q = classifySpecOrder q) ∧
    classify "hey there" = Route.casual CasualKind.greeting ∧
    classify "what is the library timing" = Route.knowledge := by
  refine ⟨?_, by decide, by decide⟩
  intro q
  have hsplit : anyWord thanksByePats (lowerL q) =
      (anyWord gratitudePats (lowerL q) || anyWord farewellPats (lowerL q)) := by
    simp [anyWord, thanksByePats, gratitudePats, farewellPats, Bool.or_assoc]
  simp only [classify, classifySpecOrder]
  rw [hsplit]
  cases h1 : anyWord greetingPats (lowerL q) <;>
    cases h2 : anyWord statusPats (lowerL q) <;>
    cases h3 : anyWord gratitudePats (lowerL q) <;>
    cases h4 : anyWord farewellPats (lowerL q) <;>
    cases h5 : anyWord capabilityPats (lowerL q) <;>
    simp

/-- Claim C5: when the collection already holds at least one item at engine
construction, ingestion is skipped entirely: the constructor only loads the
index over the existing store, so the collection (and with it the stored
chunk count) is returned unchanged — running construction again against the
same non-empty store is a no-op on the stored chunks. -/
theorem C5_nonempty_store_skips_ingestion (dirExists : Bool) (dirDocs : List String)
    (c : Collection) (h : 0 < c.items.length) :
    engineInit dirExists dirDocs c =
      .ok ({ collection := c, indexDocs := c.items }, InitAction.loaded) := by
  unfold engineInit
  rw [if_neg (by omega)]

/-- Claim C5 witness: the skip at a concrete one-chunk store. -/
theorem C5_nonempty_store_skips_ingestion_witness :
    0 < ({ items := ["attendance chunk"] } : Collection).items.length ∧
    engineInit true ["doc"] { items := ["attendance chunk"] } =
      .ok ({ collection := { items := ["attendance chunk"] },
             indexDocs := ["attendance chunk"] }, InitAction.loaded) :=
  ⟨by decide, C5_nonempty_store_skips_ingestion true ["doc"] { items := ["attendance chunk"] } (by decide)⟩

/-- Claim C6: when the source document directory does not exist, ingestion
returns without an error — the guard avoids the document loader, which
would raise — and builds an empty index, leaving the (durable, persistent-,
client-backed) collection empty; engine construction on the empty store
succeeds with zero stored documents, in a queryable state. -/
theorem C6_missing_directory_yields_empty_index (dirDocs : List String)
    (c : Collection) (h : c.items = []) :
    ingestDocuments false dirDocs c = .ok (c, []) ∧
    engineInit false dirDocs c =
      .ok ({ collection := c, indexDocs := [] }, InitAction.ingested) ∧
    ({ collection := c, indexDocs := [] } : Engine).collection.items.length = 0 ∧
    loadData false dirDocs = .error "Directory not found" := by
  refine ⟨rfl, ?_, by rw [h]; rfl, rfl⟩
  unfold engineInit
  rw [if_pos (by rw [h]; rfl)]
  rfl

/-- Claim C6 witness: the empty-directory ingestion at a concrete store. -/
theorem C6_missing_directory_yields_empty_index_witness :
    ({ items := [] } : Collection).items = [] ∧
    engineInit false ["doc"] { items := [] } =
      .ok ({ collection := { items := [] }, indexDocs := [] }, InitAction.ingested) :=
  ⟨rfl, (C6_missing_directory_yields_empty_index ["doc"] { items := [] } rfl).2.1⟩

/-- Claim C7: for a non-blank query, any exception of the retrieval or
synthesis call is caught and becomes the fixed sentinel; and on every input
`get_rag_answer` returns a string that is the blank-query message, the
query engine's own successful answer, or the sentinel — no exception ever
propagates to the caller. -/
theorem C7_query_failure_returns_sentinel :
    (∀ (qf : String → Except String String) (q err : String),
      pyStripS q ≠ "" → qf q = .error err →
      getRagAnswer qf q = "Sorry, I could not retrieve the answer right now.") ∧
    (∀ (qf : String → Except String String) (q : String),
      getRagAnswer qf q = "Please ask a valid question." ∨
      qf q = .ok (getRagAnswer qf q) ∨
      getRagAnswer qf q = "Sorry, I could not retrieve the answer right now.") := by
  constructor
  · intro qf q err hq herr
    unfold getRagAnswer
    rw [if_neg hq, herr]
  · intro qf q
    unfold getRagAnswer
    by_cases hq : pyStripS q = ""
    · left
      rw [if_pos hq]
    · rw [if_neg hq]
      cases hqf : qf q with
      | ok r =>
        right; left
        rfl
      | error e =>
        right; right
        rfl

/-- Claim C7 witness: the sentinel at a concrete non-blank query against
the always-failing query engine. -/
theorem C7_query_failure_returns_sentinel_witness :
    pyStripS "what is x" ≠ "" ∧
    failQf "what is x" = .error "retrieval backend failure" ∧
    getRagAnswer failQf "what is x" =
      "Sorry, I could not retrieve the answer right now." :=
  ⟨by decide, rfl,
    C7_query_failure_returns_sentinel.1 failQf "what is x" "retrieval backend failure"
      (by decide) rfl⟩

/-- The engine constructor never fails in the model: the only fallible
call, the document loader, is guarded by the directory check. -/
theorem engineInit_ok (dirExists : Bool) (dirDocs : List String) (c : Collection) :
    ∃ x, engineInit dirExists dirDocs c = .ok x := by
  unfold engineInit ingestDocuments loadData
  by_cases h : c.items.length = 0
  · rw [if_pos h]
    cases dirExists
    · exact ⟨_, rfl⟩
    · exact ⟨_, rfl⟩
  · rw [if_neg h]
    exact ⟨_, rfl⟩

/-- Claim C8: when `GROQ_API_KEY` is absent from the environment, the
entrypoint raises the configuration error during startup — after engine
initialization (which cannot fail) and before the session is built — so no
started session exists and no query is ever served; the failure is not
deferred to the first query. -/
theorem C8_missing_groq_key_fails_startup (cartesiaKey : Option String)
    (dirExists : Bool) (dirDocs : List String) (c : Collection) :
    entrypoint none cartesiaKey dirExists dirDocs c =
      .error "GROQ_API_KEY not found in environment variables" := by
  unfold entrypoint
  obtain ⟨x, hx⟩ := engineInit_ok dirExists dirDocs c
  rw [hx]
  obtain ⟨eng, act⟩ := x
  rfl

/-- Claim C9, counterexample: the lazy singleton construction is not
guarded.  The `None` check and the construct-and-assign of
`initialize_rag_engine` are separate interpreter steps with no lock; under
the interleaving check-A, check-B, construct-A, construct-B both first-time
callers observe `None` and each constructs its own engine: two
constructions happen and the callers hold two different instances, refuting
that concurrent first-time callers cannot create two independent engine
instances. -/
theorem C9_unguarded_construction_race_counterexample :
    (runSched [true, false, true, false] initSys).g.constructed = 2 ∧
    (runSched [true, false, true, false] initSys).a = CallerPC.done 0 ∧
    (runSched [true, false, true, false] initSys).b = CallerPC.done 1 := by
  refine ⟨rfl, rfl, rfl⟩

/-- Claim C9, amended: run atomically (single-caller, no interleaving) the
singleton behaves as claimed — the first call on the fresh module state
constructs exactly one engine and stores it, and every call that finds the
global set returns it unchanged without constructing another — but the
construction step is not guarded, so concurrent first-time callers can
construct two independent instances (see the counterexample). -/
theorem C9_sequential_singleton :
    initRagEngine { ragEngine := none, constructed := 0 } =
      ({ ragEngine := some 0, constructed := 1 }, 0) ∧
    (∀ (g : RagGlobal) (e : Nat), g.ragEngine = some e →
      initRagEngine g = (g, e)) := by
  refine ⟨rfl, ?_⟩
  intro g e h
  unfold initRagEngine
  rw [h]

/-- Claim C9 witness: the second sequential call returns the stored
instance with no new construction. -/
theorem C9_sequential_singleton_witness :
    ({ ragEngine := some 0, constructed := 1 } : RagGlobal).ragEngine = some 0 ∧
    initRagEngine { ragEngine := some 0, constructed := 1 } =
      ({ ragEngine := some 0, constructed := 1 }, 0) :=
  ⟨rfl, C9_sequential_singleton.2 { ragEngine := some 0, constructed := 1 } 0 rfl⟩

/-- Claim C10: a blank (empty or whitespace-only) query is answered with
exactly `Please ask a valid question.`, and the result does not depend on
the query engine at all — so retrieval, synthesis and the retrieval-failure
path can never be triggered by a blank query. -/
theorem C10_blank_query_short_circuits :
    ∀ (qf : String → Except String String) (q : String), pyStripS q = "" →
      getRagAnswer qf q = "Please ask a valid question." ∧
      (∀ qf2 : String → Except String String, getRagAnswer qf q = getRagAnswer qf2 q) := by
  intro qf q h
  constructor
  · unfold getRagAnswer
    rw [if_pos h]
  · intro qf2
    unfold getRagAnswer
    rw [if_pos h, if_pos h]

/-- Claim C10 witness: the whitespace-only query `"  "` against the
always-failing query engine. -/
theorem C10_blank_query_short_circuits_witness :
    pyStripS "  " = "" ∧
    getRagAnswer failQf "  " = "Please ask a valid question." :=
  ⟨by decide, (C10_blank_query_short_circuits failQf "  " (by decide)).1⟩
